import Mathlib

/-!
Verification of the request-admission and resilience core of the
ai-devops-platform repository:
  * the DLP scanner (`llm-security-gateway/src/dlp/engine.py`),
  * the admission pipeline (`llm-security-gateway/src/gateway/main.py`,
    `chat_completion`),
  * the distributed rate limiter (`llm-security-gateway/src/utils/rate_limiter.py`),
  * the policy evaluator (`llm-security-gateway/src/rbac/policy_engine.py`),
  * the circuit breaker (`mcp-aws-server/src/utils/circuit_breaker.py`).

The Python code is shallowly embedded: pure fragments become Lean
functions, the external collaborators (Presidio analyzer/anonymizer, the
model router, the OPA oracle, the Redis counter store) become explicit
parameters, and `re.search` / `re.sub` over the engine's eight concrete
regexes are implemented by a small executable backtracking matcher whose
preference order (leftmost position, left alternative first, greedy
quantifiers) matches Python's `re` module.  All scans in the source are
performed with `re.IGNORECASE`, so the matcher is case-insensitive
throughout.
-/

namespace AIDevops

/-! ## Character classes (from `dlp/engine.py` pattern definitions)

All searches and substitutions in `engine.py` pass `re.IGNORECASE`, so
character classes are interpreted case-insensitively: `[0-9A-Z]` matches
lower-case letters as well. -/

/-- Single-quote character (written by code to keep the source free of
bare apostrophes). -/
def squote : Char := Char.ofNat 39

/-- Double-quote character. -/
def dquote : Char := Char.ofNat 34

/-- Python `\w` for ASCII text: `[a-zA-Z0-9_]`. -/
def isWordChar (c : Char) : Bool := c.isAlpha || c.isDigit || c = '_'

/-- Python `\d`. -/
def digitC (c : Char) : Bool := c.isDigit

/-- Python `\s` on ASCII text: space, tab, newline, carriage return,
vertical tab, form feed. -/
def spaceC (c : Char) : Bool :=
  c = ' ' || c = '\t' || c = '\n' || c = '\r' || c = Char.ofNat 11 || c = Char.ofNat 12

/-- `[-\s]` (credit-card separator). -/
def dashSpaceC (c : Char) : Bool := c = '-' || spaceC c

/-- The class of quote characters `['\"]`. -/
def quoteC (c : Char) : Bool := c = squote || c = dquote

/-- `[^\s'\"]` (password value characters). -/
def notSpaceQuoteC (c : Char) : Bool := !(spaceC c || quoteC c)

/-- `[a-zA-Z0-9_\-]` (api-key token characters). -/
def keyTokenC (c : Char) : Bool := c.isAlpha || c.isDigit || c = '_' || c = '-'

/-- `[0-9A-Z]` under `re.IGNORECASE`: digits and letters of either case. -/
def upperAlnumCI (c : Char) : Bool := c.isDigit || c.isAlpha

/-- `[a-zA-Z0-9\-._~+/]` (bearer-token characters). -/
def bearerC (c : Char) : Bool :=
  c.isAlpha || c.isDigit || c = '-' || c = '.' || c = '_' || c = '~' || c = '+' || c = '/'

/-- `[:=]`. -/
def colonEqC (c : Char) : Bool := c = ':' || c = '='

/-- `[_-]` (optional separator in `api[_-]?key`). -/
def underscoreDashC (c : Char) : Bool := c = '_' || c = '-'

/-- `=` (trailing padding of the bearer-token pattern, `=*`). -/
def eqC (c : Char) : Bool := c = '='

/-! ## A small regex AST

Only the constructs used by the eight patterns in `DLPEngine.__init__`
are represented.  Quantifiers are restricted to character classes
(`rep`), which is all the source patterns use, so matching terminates
structurally. -/

/-- Regex abstract syntax for the engine's patterns. -/
inductive Regex where
  /-- Empty regex (matches the empty string). -/
  | eps : Regex
  /-- A literal character, compared case-insensitively (`re.IGNORECASE`). -/
  | lit : Char → Regex
  /-- A character class. -/
  | cls : (Char → Bool) → Regex
  /-- Concatenation. -/
  | seq : Regex → Regex → Regex
  /-- Alternation; the left alternative is preferred, as in Python. -/
  | alt : Regex → Regex → Regex
  /-- Greedy option `r?`. -/
  | opt : Regex → Regex
  /-- Greedy class repetition `c{lo,hi}`; `hi = none` means unbounded. -/
  | rep : (Char → Bool) → Nat → Option Nat → Regex
  /-- Word boundary `\b`. -/
  | wb : Regex

/-- Concatenate a list of regexes. -/
def seqList : List Regex → Regex
  | [] => .eps
  | [r] => r
  | r :: rs => .seq r (seqList rs)

/-- A sequence of case-insensitive literal characters. -/
def litStr (s : String) : Regex := seqList (s.data.map .lit)

/-- The character preceding the position reached after consuming `k`
characters of `cs`, given the character `prev` preceding `cs` itself.
Used to evaluate `\b` in the middle of a match. -/
def prevAfter (prev : Option Char) (cs : List Char) (k : Nat) : Option Char :=
  if k = 0 then prev else
    match (cs.take k).getLast? with
    | some c => some c
    | none => prev

/-- Python `\b`: true iff exactly one side of the position is a word
character (start/end of string count as non-word). -/
def wordBoundary (prev : Option Char) (cs : List Char) : Bool :=
  let before := match prev with | some c => isWordChar c | none => false
  let after := match cs with | c :: _ => isWordChar c | [] => false
  before != after

/-- All lengths a greedy class repetition `f{lo,hi}` can consume from
`cs`, longest first (Python's greedy backtracking order). -/
def repLens (f : Char → Bool) (lo : Nat) (hi : Option Nat) (cs : List Char) : List Nat :=
  let maxRun := (cs.takeWhile f).length
  let kmax := match hi with
    | some h => if h ≤ maxRun then h else maxRun
    | none => maxRun
  ((List.range (kmax + 1)).reverse).filter (fun k => lo ≤ k)

/-- All lengths `r` can match at the head of `cs`, in Python's
backtracking preference order (first element = the match `re` chooses).
`prev` is the character just before `cs`, for `\b`. -/
def matchLens : Regex → Option Char → List Char → List Nat
  | .eps, _, _ => [0]
  | .lit _, _, [] => []
  | .lit c, _, d :: _ => if d.toLower = c.toLower then [1] else []
  | .cls _, _, [] => []
  | .cls f, _, d :: _ => if f d then [1] else []
  | .seq a b, prev, cs =>
      ((matchLens a prev cs).map (fun k =>
        (matchLens b (prevAfter prev cs k) (cs.drop k)).map (fun m => k + m))).flatten
  | .alt a b, prev, cs => matchLens a prev cs ++ matchLens b prev cs
  | .opt a, prev, cs => matchLens a prev cs ++ [0]
  | .rep f lo hi, _, cs => repLens f lo hi cs
  | .wb, prev, cs => if wordBoundary prev cs then [0] else []

/-- Does `r` match at the head of `cs`? -/
def matchesAt (r : Regex) (prev : Option Char) (cs : List Char) : Bool :=
  !(matchLens r prev cs).isEmpty

/-- `re.search` from a given position: does `r` match anywhere in `cs`? -/
def searchFrom (r : Regex) : Option Char → List Char → Bool
  | prev, [] => matchesAt r prev []
  | prev, c :: rest => matchesAt r prev (c :: rest) || searchFrom r (some c) rest

/-- `re.search(r, s, re.IGNORECASE)` as a Boolean. -/
def reSearch (r : Regex) (s : String) : Bool := searchFrom r none s.data

/-- One pass of `re.sub`: walk the text left to right; at each position
take the matcher's preferred match if any, emit the replacement and
continue after the matched span, otherwise keep the character.  Fuel is
the remaining text length plus one, which suffices because every
accepted match consumes at least one character (none of the engine's
patterns matches the empty string; a zero-length match is skipped over
defensively). -/
def subSteps (r : Regex) (repl : List Char) : Nat → Option Char → List Char → List Char
  | 0, _, cs => cs
  | _ + 1, _, [] => []
  | fuel + 1, prev, c :: rest =>
    match (matchLens r prev (c :: rest)).head? with
    | some k =>
      if k = 0 then c :: subSteps r repl fuel (some c) rest
      else
        let m := if k ≤ (c :: rest).length then k else (c :: rest).length
        repl ++ subSteps r repl fuel (prevAfter prev (c :: rest) m) ((c :: rest).drop m)
    | none => c :: subSteps r repl fuel (some c) rest

/-- `re.sub(r, repl, s, flags=re.IGNORECASE)`. -/
def reSub (r : Regex) (repl : String) (s : String) : String :=
  ⟨subSteps r repl.data (s.data.length + 1) none s.data⟩

/-! ## The eight DLP patterns (`DLPEngine.__init__`, `self.patterns`) -/

/-- `credit_card`: `\b\d{4}[-\s]?\d{4}[-\s]?\d{4}[-\s]?\d{4}\b`. -/
def creditCardRe : Regex := seqList
  [.wb, .rep digitC 4 (some 4), .opt (.cls dashSpaceC), .rep digitC 4 (some 4),
   .opt (.cls dashSpaceC), .rep digitC 4 (some 4), .opt (.cls dashSpaceC),
   .rep digitC 4 (some 4), .wb]

/-- `ssn`: `\b\d{3}-\d{2}-\d{4}\b`. -/
def ssnRe : Regex := seqList
  [.wb, .rep digitC 3 (some 3), .lit '-', .rep digitC 2 (some 2), .lit '-',
   .rep digitC 4 (some 4), .wb]

/-- `api_key`: `(?i)(api[_-]?key|apikey)['\"]?\s*[:=]\s*['\"]?([a-zA-Z0-9_\-]{32,})`. -/
def apiKeyRe : Regex := seqList
  [.alt (seqList [litStr "api", .opt (.cls underscoreDashC), litStr "key"]) (litStr "apikey"),
   .opt (.cls quoteC), .rep spaceC 0 none, .cls colonEqC, .rep spaceC 0 none,
   .opt (.cls quoteC), .rep keyTokenC 32 none]

/-- `aws_key`: `AKIA[0-9A-Z]{16}` (searched with `re.IGNORECASE`). -/
def awsKeyRe : Regex := .seq (litStr "AKIA") (.rep upperAlnumCI 16 (some 16))

/-- `private_key`: `-----BEGIN (RSA |EC |OPENSSH )?PRIVATE KEY-----`. -/
def privateKeyRe : Regex := seqList
  [litStr "-----BEGIN ",
   .opt (.alt (litStr "RSA ") (.alt (litStr "EC ") (litStr "OPENSSH "))),
   litStr "PRIVATE KEY-----"]

/-- `bearer_token`: `bearer\s+[a-zA-Z0-9\-._~+/]+=*`. -/
def bearerTokenRe : Regex := seqList
  [litStr "bearer", .rep spaceC 1 none, .rep bearerC 1 none, .rep eqC 0 none]

/-- `password`: `(?i)(password|passwd|pwd)['\"]?\s*[:=]\s*['\"]?([^\s'\"]+)`. -/
def passwordRe : Regex := seqList
  [.alt (litStr "password") (.alt (litStr "passwd") (litStr "pwd")),
   .opt (.cls quoteC), .rep spaceC 0 none, .cls colonEqC, .rep spaceC 0 none,
   .opt (.cls quoteC), .rep notSpaceQuoteC 1 none]

/-- `ip_internal`: `\b10\.\d{1,3}\.\d{1,3}\.\d{1,3}\b`. -/
def ipInternalRe : Regex := seqList
  [.wb, litStr "10", .lit '.', .rep digitC 1 (some 3), .lit '.',
   .rep digitC 1 (some 3), .lit '.', .rep digitC 1 (some 3), .wb]

/-- `self.patterns`, in Python dict insertion order. -/
def patternsList : List (String × Regex) :=
  [("credit_card", creditCardRe), ("ssn", ssnRe), ("api_key", apiKeyRe),
   ("aws_key", awsKeyRe), ("private_key", privateKeyRe),
   ("bearer_token", bearerTokenRe), ("password", passwordRe),
   ("ip_internal", ipInternalRe)]

/-- `self.block_patterns` ("Blocking patterns (always block these)"). -/
def blockPatterns : List String := ["api_key", "aws_key", "private_key", "password"]

/-! ## DLP engine (`dlp/engine.py`)

The Presidio analyzer and anonymizer are external collaborators (the
spec treats the entity classifier as a black box), so they are
parameters of the scan. -/

/-- A Presidio `RecognizerResult`: entity type and confidence score
(the score, a Python float, is modelled as a rational; no claim depends
on it). -/
structure RecognizerResult where
  entity_type : String
  score : ℚ
deriving DecidableEq

/-- The external Presidio collaborator: `analyzer.analyze` restricted to
the entity list the engine passes, and `anonymizer.anonymize` with the
engine's operator configuration. -/
structure Presidio where
  analyze : String → List RecognizerResult
  anonymize : String → List RecognizerResult → String

/-- `DLPResult` (dataclass in `dlp/engine.py`). -/
structure DLPResult where
  blocked : Bool
  pii_detected : Bool
  redacted_text : String
  violations : List String
  pii_entities : List String
  confidence_scores : List (String × ℚ)

/-- `DLPEngine._scan_patterns`: the names of the patterns whose regex
matches `text`, in `self.patterns` iteration order. -/
def scanPatterns (text : String) : List String :=
  (patternsList.filter (fun p => reSearch p.2 text)).map (·.1)

/-- Python `str.upper()` for the ASCII pattern names (char-by-char
uppercase). -/
def strUpper (s : String) : String := ⟨s.data.map Char.toUpper⟩

/-- `DLPEngine._redact_text`: anonymize classifier entities first (only
when there are any), then substitute each matched pattern with
`<NAME_REDACTED>` in `pattern_violations` order. -/
def redactText (presidio : Presidio) (text : String)
    (pii_results : List RecognizerResult) (pattern_violations : List String) : String :=
  let redacted := if !pii_results.isEmpty then presidio.anonymize text pii_results else text
  pattern_violations.foldl (fun red name =>
    match (patternsList.find? (fun p => p.1 == name)).map (·.2) with
    | some rgx => reSub rgx ("<" ++ strUpper name ++ "_REDACTED>") red
    | none => red) redacted

/-- `DLPEngine.scan(text, mode)`: pattern scan, block-set check,
classifier call, conditional redaction, result assembly. -/
def scan (presidio : Presidio) (text : String) (mode : String) : DLPResult :=
  let pattern_violations := scanPatterns text
  let blockedFlag := pattern_violations.any (fun p => blockPatterns.contains p)
  let pii_results := presidio.analyze text
  -- `list(set(...))` in the source: entity types, deduplicated
  let pii_entities := (pii_results.map (·.entity_type)).dedup
  let redacted_text :=
    if mode == "redact" && (!pattern_violations.isEmpty || !pii_results.isEmpty) then
      redactText presidio text pii_results pattern_violations
    else text
  { blocked := blockedFlag && mode == "block"
    pii_detected := !pii_results.isEmpty
    redacted_text := redacted_text
    violations := pattern_violations
    pii_entities := pii_entities
    confidence_scores := pii_results.map (fun r => (r.entity_type, r.score)) }

/-- A classifier returning no entities (a legitimate behaviour of the
black-box collaborator; its `anonymize` is then never consulted by
`redactText`). -/
def emptyPresidio : Presidio :=
  { analyze := fun _ => [], anonymize := fun t _ => t }

/-! ## Admission pipeline (`gateway/main.py`, `chat_completion`)

The rate limiter's decision, the policy oracle's decision and the model
router are network collaborators of the handler, so their outcomes are
supplied by a `GatewayEnv`.  The trace records the terminal HTTP
outcome, the audit entries emitted, and the payload the router was
invoked with (if it was invoked at all). -/

/-- A chat message (`ChatMessage` model). -/
structure ChatMessage where
  role : String
  content : String
deriving DecidableEq

/-- A chat completion request (`ChatRequest` model; `temperature`, a
float, is modelled as a rational — no claim depends on it). -/
structure ChatRequest where
  model : String
  messages : List ChatMessage
  temperature : ℚ
  max_tokens : Nat
  user_id : String
deriving DecidableEq

/-- The authenticated user context returned by `get_current_user`. -/
structure GatewayUser where
  user_id : String
  role : String
  tier : String
  tenant : String

/-- A model router response (`routing/model_router.py` result). -/
structure ModelResponse where
  content : String
  tokens_used : Nat
  cost : ℚ
  latency_ms : Nat
deriving DecidableEq

/-- The audit record assembled by `chat_completion` step 6 and passed to
`AuditLogger.log`. -/
structure AuditEntry where
  request_id : String
  user_id : String
  tenant : String
  model : String
  tokens_used : Nat
  cost : ℚ
  pii_detected : Bool
  pii_entities : List String
deriving DecidableEq

/-- The handler's HTTP response body (`ChatResponse` model plus the
metadata fields used by the claims). -/
structure ChatResponse where
  model : String
  response : String
  tokens_used : Nat
  cost : ℚ
  pii_detected : Bool
  latency_ms : Nat
deriving DecidableEq

/-- External collaborators of one `chat_completion` invocation:
the rate limiter decision (`check_limit`), the `retry_after` it reports
when rejecting, the policy decision (`policy_engine.evaluate`), the
Presidio collaborator, and the model router (`.error` models the router
raising, which the handler's generic `except` turns into HTTP 500). -/
structure GatewayEnv where
  rateAllowed : Bool
  retryAfter : Nat
  policyAllowed : Bool
  presidio : Presidio
  route : List ChatMessage → Except Unit ModelResponse

deriving instance DecidableEq for Except

/-- Observable outcome of one `chat_completion` call: the HTTP result
(error status code on `raise HTTPException`), the audit entries emitted
via `audit_logger.log`, and the messages passed to `model_router.route`
(`none` when the router was never invoked). -/
structure PipelineTrace where
  result : Except Nat ChatResponse
  audits : List AuditEntry
  routed : Option (List ChatMessage)

/-- `chat_completion` (gateway/main.py lines 150-265), translated
stage by stage.  Note two properties of the source preserved here:
the inbound DLP scan is invoked with `mode="redact"` (line 204), and the
redacted content assigned on line 217 is a dead store — the router
receives `request.messages` unchanged (line 223). -/
def chatCompletion (env : GatewayEnv) (req : ChatRequest) (user : GatewayUser) :
    PipelineTrace :=
  -- Step 1: rate limiting; rejection raises HTTPException(429)
  if !env.rateAllowed then
    { result := .error 429, audits := [], routed := none }
  -- Step 2: RBAC authorization; denial raises HTTPException(403)
  else if !env.policyAllowed then
    { result := .error 403, audits := [], routed := none }
  else
    -- Step 3: DLP scan of the joined request content, mode="redact"
    let request_content := String.intercalate " " (req.messages.map (·.content))
    let dlp_result := scan env.presidio request_content "redact"
    if dlp_result.blocked then
      { result := .error 400, audits := [], routed := none }
    else
      -- line 217: `request_content = dlp_result.redacted_text` — dead store,
      -- the value is never read again
      let _request_content := if dlp_result.pii_detected then dlp_result.redacted_text
                              else request_content
      -- Step 4: model routing; the router receives the ORIGINAL messages
      match env.route req.messages with
      | .error _ =>
        -- router raised; generic `except` → HTTPException(500)
        { result := .error 500, audits := [], routed := some req.messages }
      | .ok model_response =>
        -- Step 5: DLP scan of the response, mode="redact"
        let response_dlp := scan env.presidio model_response.content "redact"
        let final_response := if response_dlp.pii_detected then response_dlp.redacted_text
                              else model_response.content
        -- Step 6: audit logging (reached only on this success path)
        let entry : AuditEntry :=
          { request_id := "req_" ++ user.user_id
            user_id := user.user_id
            tenant := user.tenant
            model := req.model
            tokens_used := model_response.tokens_used
            cost := model_response.cost
            pii_detected := dlp_result.pii_detected || response_dlp.pii_detected
            pii_entities := (dlp_result.pii_entities ++ response_dlp.pii_entities).dedup }
        { result := .ok
            { model := req.model
              response := final_response
              tokens_used := model_response.tokens_used
              cost := model_response.cost
              pii_detected := dlp_result.pii_detected || response_dlp.pii_detected
              latency_ms := model_response.latency_ms }
          audits := [entry]
          routed := some req.messages }

/-! ## Rate limiter (`utils/rate_limiter.py`)

The Redis counter store is modelled as a key-indexed counter map plus a
TTL map (set on the first increment of a fresh key; expiry itself is
wall-clock behaviour outside one window) and a `down` flag modelling an
unreachable store (the `except` branch of `_increment_counter`). -/

/-- The Redis counter store as seen through `INCR`/`EXPIRE`. -/
structure RLStore where
  counts : String → Nat
  ttls : String → Option Nat
  down : Bool

/-- A store with no counters, reachable. -/
def emptyStore : RLStore :=
  { counts := fun _ => 0, ttls := fun _ => none, down := false }

/-- `self.default_limits["requests_per_minute"]`. -/
def requestsPerMinute : Nat := 100

/-- `self.default_limits["requests_per_hour"]`. -/
def requestsPerHour : Nat := 1000

/-- `self.default_limits["tokens_per_day"]`. -/
def tokensPerDay : Nat := 100000

/-- `RateLimiter._increment_counter`: atomic `INCR` by `increment`,
`EXPIRE` set when the post-increment value equals the increment (fresh
key); if Redis is unreachable the `except` branch returns 0 without
touching any state (fail-open). -/
def incrementCounter (s : RLStore) (key : String) (windowSeconds : Nat)
    (increment : Nat) : Nat × RLStore :=
  if s.down then (0, s)
  else
    let current := s.counts key + increment
    (current,
      { counts := fun k => if k = key then current else s.counts k
        -- EXPIRE is issued only when the post-increment value equals the
        -- increment, i.e. the key was fresh
        ttls := fun k => if current = increment ∧ k = key then some windowSeconds else s.ttls k
        down := s.down })

/-- The per-user per-minute scope key. -/
def userKey (user_id : String) : String := "rate_limit:user:" ++ user_id ++ ":minute"

/-- The per-tenant per-hour scope key. -/
def tenantKey (tenant : String) : String := "rate_limit:tenant:" ++ tenant ++ ":hour"

/-- The per-user tokens-per-day scope key. -/
def tokenKey (user_id : String) : String := "rate_limit:user:" ++ user_id ++ ":tokens:day"

/-- The `limit_info` dict returned by `check_limit`: either the
violation report (`retry_after`, `limit`, `current`) or the usage report
of an admitted request. -/
inductive LimitInfo where
  | rejected (retry_after limit current : Nat)
  | allowed (user_requests tenant_requests tokens_used : Nat)
deriving DecidableEq

/-- `RateLimiter.check_limit(user_id, tenant, tokens)`: increments and
checks the user-minute scope, then the tenant-hour scope (limit 10x the
per-user hourly limit), then — only when `tokens > 0` — the
user-tokens-day scope, returning at the first violated scope. -/
def checkLimit (s : RLStore) (user_id tenant : String) (tokens : Nat) :
    Bool × LimitInfo × RLStore :=
  let user_count := (incrementCounter s (userKey user_id) 60 1).1
  let s1 := (incrementCounter s (userKey user_id) 60 1).2
  if user_count > requestsPerMinute then
    (false, .rejected 60 requestsPerMinute user_count, s1)
  else
    let tenant_count := (incrementCounter s1 (tenantKey tenant) 3600 1).1
    let s2 := (incrementCounter s1 (tenantKey tenant) 3600 1).2
    -- `tenant_limit = self.default_limits["requests_per_hour"] * 10`
    let tenant_limit := requestsPerHour * 10
    if tenant_count > tenant_limit then
      (false, .rejected 3600 tenant_limit tenant_count, s2)
    else if tokens > 0 then
      let token_count := (incrementCounter s2 (tokenKey user_id) 86400 tokens).1
      let s3 := (incrementCounter s2 (tokenKey user_id) 86400 tokens).2
      if token_count > tokensPerDay then
        (false, .rejected 86400 tokensPerDay token_count, s3)
      else
        (true, .allowed user_count tenant_count token_count, s3)
    else
      (true, .allowed user_count tenant_count 0, s2)

/-- The store after the user-minute scope increment. -/
def afterUser (s : RLStore) (user_id : String) : RLStore :=
  (incrementCounter s (userKey user_id) 60 1).2

/-- The store after the user-minute and tenant-hour scope increments. -/
def afterTenant (s : RLStore) (user_id tenant : String) : RLStore :=
  (incrementCounter (afterUser s user_id) (tenantKey tenant) 3600 1).2

/-! ## Policy evaluator (`rbac/policy_engine.py`) -/

/-- The OPA oracle's HTTP answer: status code and the optional boolean
`result` field of the JSON body (`result.get("result", False)`). -/
structure OPAResponse where
  status_code : Nat
  result : Option Bool
deriving DecidableEq

/-- `PolicyEngine.evaluate` as a function of the oracle transport
outcome: `none` models a timeout or transport exception (the `except`
branch), a non-200 status takes the fail-closed `else` branch, and a 200
answer returns `result.get("result", False)`. -/
def policyEvaluate (resp : Option OPAResponse) : Bool :=
  match resp with
  | none => false
  | some r => if r.status_code = 200 then r.result.getD false else false

/-! ## Circuit breaker (`mcp-aws-server/src/utils/circuit_breaker.py`)

Time (`time.time()`) is modelled as an integer number of seconds; the
wrapped coroutine's outcome for this call is supplied as a Boolean
(`true` = returned, `false` = raised). -/

/-- The breaker's `self.state` string. -/
inductive BreakerState where
  | CLOSED
  | OPEN
  | HALF_OPEN
deriving DecidableEq

/-- The `CircuitBreaker` instance fields. -/
structure CircuitBreaker where
  failure_threshold : Nat
  timeout : Int
  failure_count : Nat
  last_failure_time : Int
  state : BreakerState
deriving DecidableEq

/-- What one guarded call did. -/
inductive CBOutcome where
  /-- `CircuitBreakerError` raised without invoking the wrapped function. -/
  | circuitOpenError
  /-- The wrapped function was invoked and its result returned. -/
  | returned
  /-- The wrapped function was invoked, raised, and the failure was
  recorded and re-raised. -/
  | raised
deriving DecidableEq

/-- Result of one pass through the `wrapper` closure. -/
structure CBStep where
  breaker : CircuitBreaker
  outcome : CBOutcome
  invoked : Bool
deriving DecidableEq

/-- One invocation of the wrapped function under `CircuitBreaker.call`
(`wrapper`, circuit_breaker.py lines 57-101).  In the OPEN state the
wrapper first raises `CircuitBreakerError` unless `now -
last_failure_time >= timeout`, in which case it moves to HALF_OPEN and
proceeds; success resets `failure_count` only from HALF_OPEN; failure
increments `failure_count`, refreshes `last_failure_time` and opens the
circuit when the threshold is reached. -/
def cbCall (b : CircuitBreaker) (now : Int) (funcSucceeds : Bool) : CBStep :=
  if b.state = .OPEN ∧ now - b.last_failure_time < b.timeout then
    { breaker := b, outcome := .circuitOpenError, invoked := false }
  else
    let b1 := if b.state = .OPEN then { b with state := .HALF_OPEN } else b
    if funcSucceeds then
      if b1.state = .HALF_OPEN then
        { breaker := { b1 with state := .CLOSED, failure_count := 0 }
          outcome := .returned, invoked := true }
      else
        { breaker := b1, outcome := .returned, invoked := true }
    else
      let fc := b1.failure_count + 1
      let b2 := { b1 with failure_count := fc, last_failure_time := now }
      if fc ≥ b1.failure_threshold then
        { breaker := { b2 with state := .OPEN }, outcome := .raised, invoked := true }
      else
        { breaker := b2, outcome := .raised, invoked := true }

/-- `k` consecutive failing calls, all at time `now`. -/
def iterFail (b : CircuitBreaker) (now : Int) : Nat → CircuitBreaker
  | 0 => b
  | k + 1 => (cbCall (iterFail b now k) now false).breaker

/-- A sequence of guarded calls with the given outcomes, all at time `now`. -/
def cbRun (b : CircuitBreaker) (now : Int) : List Bool → CircuitBreaker
  | [] => b
  | o :: os => cbRun (cbCall b now o).breaker now os

/-- `k` repetitions of `check_limit` for the same user and tenant with
`tokens = 0`, threading the counter store. -/
def iterCheck (s : RLStore) (uid tenant : String) : Nat → RLStore
  | 0 => s
  | k + 1 => (checkLimit (iterCheck s uid tenant k) uid tenant 0).2.2

/-! ## Concrete scenario data shared by the theorems -/

/-- The mock user `get_current_user` returns. -/
def demoUser : GatewayUser :=
  { user_id := "user_123", role := "user", tier := "premium", tenant := "acme_corp" }

/-- A router that answers every dispatch with a fixed clean response. -/
def okRoute : List ChatMessage → Except Unit ModelResponse :=
  fun _ => .ok { content := "ok", tokens_used := 1, cost := 0, latency_ms := 1 }

/-- An environment in which every admission stage admits the request. -/
def envAdmit : GatewayEnv :=
  { rateAllowed := true, retryAfter := 60, policyAllowed := true,
    presidio := emptyPresidio, route := okRoute }

/-- An environment whose rate limiter rejects the request. -/
def envRateLimited : GatewayEnv :=
  { rateAllowed := false, retryAfter := 60, policyAllowed := true,
    presidio := emptyPresidio, route := okRoute }

/-- A request whose single message carries a credential matching the
blocking `password` pattern. -/
def reqPassword : ChatRequest :=
  { model := "gpt-4", messages := [{ role := "user", content := "password: hunter2" }],
    temperature := 7/10, max_tokens := 1000, user_id := "anonymous" }

/-- A classifier behaviour that recognizes the email address in
`"contact bob@example.com"` and anonymizes it with the engine's
`EMAIL_ADDRESS` operator. -/
def emailPresidio : Presidio :=
  { analyze := fun t =>
      if t = "contact bob@example.com" then [{ entity_type := "EMAIL_ADDRESS", score := 1 }]
      else []
    anonymize := fun t _ =>
      if t = "contact bob@example.com" then "contact <EMAIL_REDACTED>" else t }

/-- An all-admitting environment using `emailPresidio`. -/
def envEmail : GatewayEnv :=
  { rateAllowed := true, retryAfter := 60, policyAllowed := true,
    presidio := emailPresidio, route := okRoute }

/-- A request whose single message contains an email address (PII). -/
def reqEmail : ChatRequest :=
  { model := "gpt-4", messages := [{ role := "user", content := "contact bob@example.com" }],
    temperature := 7/10, max_tokens := 1000, user_id := "anonymous" }

/-! ## C1 — audit emission -/

/-- C1 counterexample: a request rejected by the rate limiter (HTTP 429)
emits no audit entry at all — `audit_logger.log` sits after the dispatch
on the success path and the early `raise HTTPException` bypasses it, so
it is not the case that exactly one `AuditEntry` is emitted regardless
of which stage rejected the request. -/
theorem audit_missing_on_rate_limit_rejection :
    (chatCompletion envRateLimited reqPassword demoUser).audits = []
    ∧ (chatCompletion envRateLimited reqPassword demoUser).result = .error 429 :=
  ⟨rfl, rfl⟩

/-- C1 (amended): exactly one `AuditEntry` is emitted for a request that
completes the whole pipeline successfully, and none for a request that
terminates early (rate limited, policy denied, DLP blocked, or dispatch
failure). -/
theorem audit_emitted_exactly_on_success (env : GatewayEnv) (req : ChatRequest)
    (user : GatewayUser) :
    (chatCompletion env req user).audits.length
      = if (chatCompletion env req user).result.isOk then 1 else 0 := by
  simp only [chatCompletion]
  split
  · rfl
  split
  · rfl
  split
  · rfl
  split <;> rfl

/-! ## C2 — inbound credential blocking -/

/-- C2 (code evaluated at the failing input): the engine in `block` mode
does flag `"password: hunter2"` as blocked, but the pipeline scans the
inbound payload with `mode="redact"` (main.py line 204), so the same
request is not terminated with HTTP 400 — it is dispatched to the
router, credential and all. -/
theorem credential_request_dispatched_not_blocked :
    (scan emptyPresidio "password: hunter2" "block").blocked = true
    ∧ (scan emptyPresidio "password: hunter2" "redact").blocked = false
    ∧ (chatCompletion envAdmit reqPassword demoUser).result ≠ .error 400
    ∧ (chatCompletion envAdmit reqPassword demoUser).routed = some reqPassword.messages :=
  ⟨by decide, by decide, by decide, by decide⟩

/-! ## C3 — redacted payload forwarding -/

/-- C3 (code evaluated at the failing input): for a request in which the
inbound scan detects PII (an email address), the redact-mode output
differs from the original payload, yet the router receives the original
`request.messages` — the assignment on main.py line 217 is a dead store
and the redacted payload is never forwarded. -/
theorem router_receives_unredacted_payload :
    (scan emailPresidio "contact bob@example.com" "redact").pii_detected = true
    ∧ (scan emailPresidio "contact bob@example.com" "redact").redacted_text
        ≠ "contact bob@example.com"
    ∧ (chatCompletion envEmail reqEmail demoUser).routed = some reqEmail.messages
    ∧ (chatCompletion envEmail reqEmail demoUser).result.isOk = true :=
  ⟨by decide, by decide, by decide, by decide⟩

/-! ## C4 — failure-count reset in the Closed state -/

/-- C4 (code evaluated at the failing input): in the `CLOSED` state a
successful guarded call does NOT reset `failure_count` (the reset only
happens from `HALF_OPEN`), so failures accumulated across interleaved
successes still drive the Closed → Open transition: with threshold 3,
the outcome sequence fail, success, fail, success, fail opens the
circuit even though no two failures were consecutive. -/
theorem closed_success_keeps_failure_count :
    (cbCall ⟨3, 60, 1, 0, .CLOSED⟩ 10 true).breaker.failure_count = 1
    ∧ (cbRun ⟨3, 60, 0, 0, .CLOSED⟩ 10 [false, true, false, true, false]).state = .OPEN :=
  ⟨rfl, rfl⟩

/-! ## C8 — blocked-flag characterization -/

/-- C8: `scan`'s `blocked` field is true exactly when `mode == "block"`
and some matched pattern belongs to the blocking set
`{api_key, aws_key, private_key, password}`; consequently it is false
whenever `mode` is `redact` or `alert`, and it does not depend on the
entity classifier at all (PII detections alone never block). -/
theorem scan_blocked_characterization (p q : Presidio) (text mode : String) :
    (scan p text mode).blocked
        = ((scanPatterns text).any (fun n => blockPatterns.contains n) && (mode == "block"))
    ∧ (mode ≠ "block" → (scan p text mode).blocked = false)
    ∧ (scan p text mode).blocked = (scan q text mode).blocked := by
  refine ⟨rfl, ?_, rfl⟩
  intro h
  simp [scan, h]

/-- Witness for C8 at a concrete input: a blocking credential pattern
matches, yet `redact` mode reports `blocked = false`. -/
theorem scan_blocked_characterization_witness :
    (scan emptyPresidio "password: hunter2" "redact").blocked = false :=
  (scan_blocked_characterization emptyPresidio emptyPresidio "password: hunter2" "redact").2.1
    (by decide)

/-! ## C10 — non-redact modes return the original text -/

/-- C10: for every mode other than `redact` (in particular `block` and
`alert`), `scan` returns `redacted_text` equal to the input unchanged,
even when blocking patterns or PII were detected. -/
theorem scan_nonredact_keeps_text (p : Presidio) (text mode : String)
    (h : mode ≠ "redact") :
    (scan p text mode).redacted_text = text := by
  simp [scan, h]

/-- Witness for C10: `block` mode on a text with a matched blocking
pattern still returns the raw text. -/
theorem scan_nonredact_keeps_text_witness :
    (scan emptyPresidio "password: hunter2" "block").redacted_text = "password: hunter2" :=
  scan_nonredact_keeps_text emptyPresidio "password: hunter2" "block" (by decide)

/-! ## C9 — redaction idempotence -/

/-- C9 counterexample: redaction is not idempotent.  For the input
`"AKIA0123456789ABCDEF123-45-6789"` the first redact-mode scan replaces
the AWS key, producing `"<AWS_KEY_REDACTED>123-45-6789"`; the
substitution creates a word boundary in front of the SSN-shaped suffix
(which the first scan could not match, because it was glued to the key),
so a second redact-mode scan alters the text again. -/
theorem redact_twice_changes_text :
    (scan emptyPresidio
        ((scan emptyPresidio "AKIA0123456789ABCDEF123-45-6789" "redact").redacted_text)
        "redact").redacted_text
      ≠ (scan emptyPresidio "AKIA0123456789ABCDEF123-45-6789" "redact").redacted_text := by
  decide

/-- C9 (amended): a redact-mode scan returns its input unchanged
whenever that input is clean — no pattern matches and no classifier
detection.  Applied to a first scan's output this yields conditional
idempotence (a sufficient condition only); in general idempotence
fails, as the counterexample shows. -/
theorem redact_idempotent_on_clean_text (p : Presidio) (text : String)
    (hpat : scanPatterns text = [])
    (hpii : p.analyze text = []) :
    (scan p text "redact").redacted_text = text := by
  simp [scan, hpat, hpii]

/-- Witness for the amended C9: this pattern placeholder matches no
pattern, so a redact-mode scan leaves it untouched. -/
theorem redact_idempotent_on_clean_text_witness :
    (scan emptyPresidio "<PASSWORD_REDACTED>" "redact").redacted_text
      = "<PASSWORD_REDACTED>" :=
  redact_idempotent_on_clean_text emptyPresidio "<PASSWORD_REDACTED>" (by decide) rfl

/-! ## C5 — circuit breaker state machine -/

/-- After `k < threshold` consecutive failures, a fresh closed breaker
is still closed with `failure_count = k`. -/
lemma iterFail_closed_below_threshold (thr : Nat) (tmo lt now : Int) :
    ∀ k, k < thr →
      iterFail ⟨thr, tmo, 0, lt, .CLOSED⟩ now k
        = ⟨thr, tmo, k, if k = 0 then lt else now, .CLOSED⟩ := by
  intro k
  induction k with
  | zero => intro _; rfl
  | succ n ih =>
    intro h
    have hn := ih (Nat.lt_of_succ_lt h)
    show (cbCall (iterFail ⟨thr, tmo, 0, lt, .CLOSED⟩ now n) now false).breaker = _
    rw [hn]
    have hlt : ¬ n + 1 ≥ thr := by omega
    simp [cbCall, hlt]

/-- Breaker states reachable from a freshly constructed
`CircuitBreaker(failure_threshold, timeout)` by guarded calls. -/
inductive Reachable (thr : Nat) (tmo : Int) : CircuitBreaker → Prop where
  /-- `__init__`: `failure_count = 0`, state `CLOSED` (the initial
  `last_failure_time` is 0 in the source; any value is allowed here). -/
  | init (lt : Int) : Reachable thr tmo ⟨thr, tmo, 0, lt, .CLOSED⟩
  /-- One guarded call. -/
  | step (b : CircuitBreaker) (now : Int) (ok : Bool) :
      Reachable thr tmo b → Reachable thr tmo (cbCall b now ok).breaker

/-- Invariant of reachable breakers: the configured threshold never
changes, and in any state other than `CLOSED` the failure count has
reached the threshold (the count is only reset on closing). -/
lemma reachable_invariant (thr : Nat) (tmo : Int) (b : CircuitBreaker)
    (hr : Reachable thr tmo b) :
    b.failure_threshold = thr
    ∧ (b.state ≠ .CLOSED → thr ≤ b.failure_count) := by
  induction hr with
  | init lt => exact ⟨rfl, fun h => absurd rfl h⟩
  | step b now ok hb ih =>
    obtain ⟨hthr, hcount⟩ := ih
    by_cases hst : b.state = .OPEN
    · have hc : thr ≤ b.failure_count := hcount (by simp [hst])
      by_cases hlt : now - b.last_failure_time < b.timeout
      · constructor
        · simp [cbCall, hst, hlt, hthr]
        · intro _
          simp [cbCall, hst, hlt, hc]
      · cases ok with
        | true =>
          constructor
          · simp [cbCall, hst, hlt, hthr]
          · intro hne
            exact absurd (by simp [cbCall, hst, hlt]) hne
        | false =>
          have hge : thr ≤ b.failure_count + 1 := by omega
          constructor
          · simp [cbCall, hst, hlt, hthr, hge]
          · intro _
            simp [cbCall, hst, hlt, hthr, hge]
    · have hcond : ¬ (b.state = .OPEN ∧ now - b.last_failure_time < b.timeout) := by
        rintro ⟨h, -⟩
        exact hst h
      cases ok with
      | true =>
        by_cases hhalf : b.state = .HALF_OPEN
        · constructor
          · simp [cbCall, hcond, hst, hhalf, hthr]
          · intro hne
            exact absurd (by simp [cbCall, hcond, hst, hhalf]) hne
        · constructor
          · simp [cbCall, hcond, hst, hhalf, hthr]
          · intro hne
            have hb2 : b.state ≠ .CLOSED := by
              simpa [cbCall, hcond, hst, hhalf] using hne
            have := hcount hb2
            simpa [cbCall, hcond, hst, hhalf] using this
      | false =>
        by_cases hge : thr ≤ b.failure_count + 1
        · constructor
          · simp [cbCall, hcond, hst, hthr, hge]
          · intro _
            simp [cbCall, hcond, hst, hthr, hge]
        · constructor
          · simp [cbCall, hcond, hst, hthr, hge]
          · intro hne
            have hb2 : b.state ≠ .CLOSED := by
              simpa [cbCall, hcond, hst, hthr, hge] using hne
            have := hcount hb2
            simp [cbCall, hcond, hst, hthr, hge]
            omega

/-- C5: the circuit breaker state machine.  (1) `failure_threshold`
consecutive failures drive a fresh closed breaker to `OPEN`.  (2) While
`OPEN` and the timeout has not elapsed since `last_failure_time`, a call
raises `CircuitBreakerError` without invoking the wrapped function and
leaves the breaker unchanged.  (3) Once the timeout has elapsed, the
call invokes the wrapped function (through `HALF_OPEN`); on success the
breaker closes with `failure_count = 0`, on failure it re-opens with
`last_failure_time` refreshed to the current time (given the invariant
`failure_threshold ≤ failure_count`, which `reachable_invariant` proves
for every reachable non-`CLOSED` breaker). -/
theorem circuit_breaker_state_machine (thr : Nat) (tmo lt : Int) (hthr : 1 ≤ thr) :
    (∀ now : Int, (iterFail ⟨thr, tmo, 0, lt, .CLOSED⟩ now thr).state = .OPEN)
    ∧ (∀ (b : CircuitBreaker) (now : Int) (ok : Bool),
        b.state = .OPEN → now - b.last_failure_time < b.timeout →
        cbCall b now ok = ⟨b, .circuitOpenError, false⟩)
    ∧ (∀ (b : CircuitBreaker) (now : Int) (ok : Bool),
        b.state = .OPEN → b.timeout ≤ now - b.last_failure_time →
        (cbCall b now ok).invoked = true
        ∧ (ok = true →
            (cbCall b now ok).breaker = { b with state := .CLOSED, failure_count := 0 })
        ∧ (ok = false → b.failure_threshold ≤ b.failure_count →
            (cbCall b now ok).breaker.state = .OPEN
            ∧ (cbCall b now ok).breaker.last_failure_time = now
            ∧ (cbCall b now ok).breaker.failure_count = b.failure_count + 1)) := by
  refine ⟨?_, ?_, ?_⟩
  · intro now
    obtain ⟨n, rfl⟩ : ∃ n, thr = n + 1 := ⟨thr - 1, by omega⟩
    show (cbCall (iterFail ⟨n + 1, tmo, 0, lt, .CLOSED⟩ now n) now false).breaker.state = _
    rw [iterFail_closed_below_threshold (n + 1) tmo lt now n (by omega)]
    simp [cbCall]
  · intro b now ok h1 h2
    unfold cbCall
    rw [if_pos ⟨h1, h2⟩]
  · intro b now ok h1 h2
    have hnlt : ¬ now - b.last_failure_time < b.timeout := by omega
    have hcond : ¬ (b.state = .OPEN ∧ now - b.last_failure_time < b.timeout) := by
      rintro ⟨-, hlt⟩
      exact hnlt hlt
    refine ⟨?_, ?_, ?_⟩
    · cases ok <;> simp [cbCall, hcond, hnlt, h1, apply_ite CBStep.invoked]
    · intro hok
      subst hok
      simp [cbCall, hcond, hnlt, h1]
    · intro hok hf
      subst hok
      have hge : b.failure_count + 1 ≥ b.failure_threshold := by omega
      refine ⟨?_, ?_, ?_⟩ <;> simp [cbCall, hcond, hnlt, h1, hge]

/-- Witness for C5 at a concrete breaker (threshold 2, timeout 60):
two failures open the circuit; at time 30 the call is rejected
uninvoked; at time 100 a successful trial closes the breaker with the
count reset, and a failed trial re-opens it with the failure time
refreshed. -/
theorem circuit_breaker_state_machine_witness :
    (iterFail ⟨2, 60, 0, 0, .CLOSED⟩ 100 2).state = .OPEN
    ∧ cbCall ⟨2, 60, 2, 0, .OPEN⟩ 30 true = ⟨⟨2, 60, 2, 0, .OPEN⟩, .circuitOpenError, false⟩
    ∧ (cbCall ⟨2, 60, 2, 0, .OPEN⟩ 100 true).breaker = ⟨2, 60, 0, 0, .CLOSED⟩
    ∧ (cbCall ⟨2, 60, 2, 0, .OPEN⟩ 100 false).breaker.state = .OPEN
    ∧ (cbCall ⟨2, 60, 2, 0, .OPEN⟩ 100 false).breaker.last_failure_time = 100 := by
  have T := circuit_breaker_state_machine 2 60 0 (by decide)
  refine ⟨T.1 100, T.2.1 ⟨2, 60, 2, 0, .OPEN⟩ 30 true rfl (by decide), ?_, ?_, ?_⟩
  · exact (T.2.2 ⟨2, 60, 2, 0, .OPEN⟩ 100 true rfl (by decide)).2.1 rfl
  · exact ((T.2.2 ⟨2, 60, 2, 0, .OPEN⟩ 100 false rfl (by decide)).2.2 rfl (by decide)).1
  · exact ((T.2.2 ⟨2, 60, 2, 0, .OPEN⟩ 100 false rfl (by decide)).2.2 rfl (by decide)).2.1

/-! ## C6 — rate limiter scopes, windows, and check order -/

/-- Basic facts about `_increment_counter` on a reachable store. -/
lemma incrementCounter_up (s : RLStore) (key : String) (w i : Nat)
    (hdown : s.down = false) :
    (incrementCounter s key w i).1 = s.counts key + i
    ∧ (incrementCounter s key w i).2.down = false
    ∧ (incrementCounter s key w i).2.counts key = s.counts key + i
    ∧ ∀ k, k ≠ key → (incrementCounter s key w i).2.counts k = s.counts k := by
  refine ⟨?_, ?_, ?_, ?_⟩ <;> simp [incrementCounter, hdown]
  intro k hk
  simp [hk]

/-- From a fresh store, after `k ≤ 100` admitted checks the user-minute
and tenant-hour counters both read `k` (the scope keys are distinct for
any user/tenant pair whose keys differ). -/
lemma iterCheck_counts (uid tenant : String)
    (hkey : userKey uid ≠ tenantKey tenant) :
    ∀ k, k ≤ requestsPerMinute →
      (iterCheck emptyStore uid tenant k).down = false
      ∧ (iterCheck emptyStore uid tenant k).counts (userKey uid) = k
      ∧ (iterCheck emptyStore uid tenant k).counts (tenantKey tenant) = k := by
  have hkey' : tenantKey tenant ≠ userKey uid := Ne.symm hkey
  intro k
  induction k with
  | zero => intro _; exact ⟨rfl, rfl, rfl⟩
  | succ n ih =>
    intro h
    obtain ⟨hd, hu, ht⟩ := ih (by omega)
    have hmin : ¬ n + 1 > requestsPerMinute := by omega
    have hten : ¬ n + 1 > requestsPerHour * 10 := by
      have : requestsPerMinute ≤ requestsPerHour * 10 := by decide
      omega
    simp [iterCheck, checkLimit, incrementCounter, hd, hu, ht, hkey, hkey', hmin, hten]

/-- C6: scope limits and check ordering of `check_limit`.
(1) A request whose user-minute counter reaches `limit + 1` is rejected
with that scope's `retry_after`/`limit`/`current`, and the tenant and
token scopes are not even incremented (short-circuit).  (2) With the
user scope within limit, a tenant-hour counter past its limit rejects
with the tenant scope's report, leaving the token scope untouched.
(3) With both request scopes within limit and `tokens > 0`, a token-day
counter past its limit rejects with the token scope's report.  (4) With
every applicable scope within its limit the request is admitted.
(5) Consequently, from a fresh store the first 100 checks for a user are
admitted and the 101st is rejected with `retry_after = 60`,
`limit = 100`, `current = 101`. -/
theorem rate_limiter_scope_checks (s : RLStore) (uid tenant : String) (tokens : Nat)
    (hdown : s.down = false) :
    (requestsPerMinute < s.counts (userKey uid) + 1 →
      checkLimit s uid tenant tokens
        = (false, .rejected 60 requestsPerMinute (s.counts (userKey uid) + 1),
            afterUser s uid))
    ∧ (s.counts (userKey uid) + 1 ≤ requestsPerMinute →
       requestsPerHour * 10 < (afterUser s uid).counts (tenantKey tenant) + 1 →
      checkLimit s uid tenant tokens
        = (false, .rejected 3600 (requestsPerHour * 10)
            ((afterUser s uid).counts (tenantKey tenant) + 1),
            afterTenant s uid tenant))
    ∧ (s.counts (userKey uid) + 1 ≤ requestsPerMinute →
       (afterUser s uid).counts (tenantKey tenant) + 1 ≤ requestsPerHour * 10 →
       0 < tokens →
       tokensPerDay < (afterTenant s uid tenant).counts (tokenKey uid) + tokens →
      checkLimit s uid tenant tokens
        = (false, .rejected 86400 tokensPerDay
            ((afterTenant s uid tenant).counts (tokenKey uid) + tokens),
            (incrementCounter (afterTenant s uid tenant) (tokenKey uid) 86400 tokens).2))
    ∧ (s.counts (userKey uid) + 1 ≤ requestsPerMinute →
       (afterUser s uid).counts (tenantKey tenant) + 1 ≤ requestsPerHour * 10 →
       tokens = 0 →
      checkLimit s uid tenant tokens
        = (true, .allowed (s.counts (userKey uid) + 1)
            ((afterUser s uid).counts (tenantKey tenant) + 1) 0,
            afterTenant s uid tenant))
    ∧ (userKey uid ≠ tenantKey tenant →
        (∀ k, k < requestsPerMinute →
          (checkLimit (iterCheck emptyStore uid tenant k) uid tenant 0).1 = true)
        ∧ (checkLimit (iterCheck emptyStore uid tenant requestsPerMinute)
            uid tenant 0).2.1
            = .rejected 60 requestsPerMinute (requestsPerMinute + 1)) := by
  obtain ⟨hu1, hud, huk, huo⟩ := incrementCounter_up s (userKey uid) 60 1 hdown
  refine ⟨?_, ?_, ?_, ?_, ?_⟩
  · intro h
    simp only [afterUser, checkLimit, hu1]
    rw [if_pos (by omega)]
  · intro h1 h2
    obtain ⟨ht1, htd, -, -⟩ :=
      incrementCounter_up (afterUser s uid) (tenantKey tenant) 3600 1 hud
    simp only [afterUser, afterTenant] at ht1 htd h2 ⊢
    simp only [checkLimit, hu1, ht1]
    rw [if_neg (by omega), if_pos (by omega)]
  · intro h1 h2 h3 h4
    obtain ⟨ht1, htd, -, -⟩ :=
      incrementCounter_up (afterUser s uid) (tenantKey tenant) 3600 1 hud
    obtain ⟨hk1, -, -, -⟩ :=
      incrementCounter_up (afterTenant s uid tenant) (tokenKey uid) 86400 tokens htd
    simp only [afterUser, afterTenant] at ht1 htd hk1 h2 h4 ⊢
    simp only [checkLimit, hu1, ht1, hk1]
    rw [if_neg (by omega), if_neg (by omega), if_pos h3, if_pos (by omega)]
  · intro h1 h2 h3
    obtain ⟨ht1, htd, -, -⟩ :=
      incrementCounter_up (afterUser s uid) (tenantKey tenant) 3600 1 hud
    simp only [afterUser, afterTenant] at ht1 htd h2 ⊢
    simp only [checkLimit, hu1, ht1]
    rw [if_neg (by omega), if_neg (by omega), if_neg (by omega)]
  · intro hkey
    constructor
    · intro k hk
      obtain ⟨hd, hu, ht⟩ := iterCheck_counts uid tenant hkey k (by omega)
      have hten : ¬ k + 1 > requestsPerHour * 10 := by
        have : requestsPerMinute ≤ requestsPerHour * 10 := by decide
        omega
      simp [checkLimit, incrementCounter, hd, hu, ht, Ne.symm hkey,
        show ¬ k + 1 > requestsPerMinute by omega, hten]
    · obtain ⟨hd, hu, ht⟩ :=
        iterCheck_counts uid tenant hkey requestsPerMinute (Nat.le_refl _)
      simp [checkLimit, incrementCounter, hd, hu, ht,
        show requestsPerMinute < requestsPerMinute + 1 from by omega]

/-- A store in which the demo user's minute counter already reads 100. -/
def storeAt100 : RLStore :=
  { counts := fun k => if k = userKey "user_123" then 100 else 0
    ttls := fun _ => none
    down := false }

/-- Witness for C6: the 101st request within a minute window is rejected
with the user scope's report, both for an explicit counter value of 100
and for the iterated checks from a fresh store. -/
theorem rate_limiter_scope_checks_witness :
    checkLimit storeAt100 "user_123" "acme_corp" 0
      = (false, .rejected 60 requestsPerMinute 101, afterUser storeAt100 "user_123")
    ∧ (checkLimit (iterCheck emptyStore "user_123" "acme_corp" requestsPerMinute)
        "user_123" "acme_corp" 0).2.1
        = .rejected 60 requestsPerMinute (requestsPerMinute + 1) := by
  have T := rate_limiter_scope_checks storeAt100 "user_123" "acme_corp" 0 rfl
  have T2 := rate_limiter_scope_checks emptyStore "user_123" "acme_corp" 0 rfl
  exact ⟨T.1 (by decide), (T2.2.2.2.2 (by decide)).2⟩

/-! ## C7 — stage-specific default decisions on dependency failure -/

/-- C7: when the counter store is unreachable (`down`), `check_limit`
returns allowed and leaves the store untouched (fail-open); the policy
evaluator returns deny on transport error/timeout (`none`) and on any
non-200 oracle status (fail-closed). -/
theorem stage_dependency_failure_defaults :
    (∀ (s : RLStore) (uid tenant : String) (tokens : Nat), s.down = true →
        (checkLimit s uid tenant tokens).1 = true
        ∧ (checkLimit s uid tenant tokens).2.2 = s)
    ∧ policyEvaluate none = false
    ∧ (∀ r : OPAResponse, r.status_code ≠ 200 → policyEvaluate (some r) = false) := by
  refine ⟨?_, rfl, ?_⟩
  · intro s uid tenant tokens h
    by_cases htok : 0 < tokens <;>
      refine ⟨?_, ?_⟩ <;>
        simp [checkLimit, incrementCounter, h, htok,
          requestsPerMinute, requestsPerHour, tokensPerDay]
  · intro r h
    simp [policyEvaluate, h]

/-- A store whose Redis connection is down. -/
def downStore : RLStore := { counts := fun _ => 0, ttls := fun _ => none, down := true }

/-- Witness for C7: an unreachable store admits a token-bearing request,
and a 500 from the policy oracle denies. -/
theorem stage_dependency_failure_defaults_witness :
    (checkLimit downStore "user_123" "acme_corp" 5).1 = true
    ∧ policyEvaluate (some ⟨500, none⟩) = false :=
  ⟨(stage_dependency_failure_defaults.1 downStore "user_123" "acme_corp" 5 rfl).1,
   stage_dependency_failure_defaults.2.2 ⟨500, none⟩ (by decide)⟩

end AIDevops
